import Mathlib

/-!
Verification of the moderation decision engine of the
`astrbot_plugin_group_aip_review` plugin (`src/main.py`).

The development is a shallow embedding of the pure decision logic of the
source file into Lean:

* `parse_text_result` and `parse_image_result` embed
  `AuditResultParser.parse_text_result` / `parse_image_result`.
* `ViolationManager` with `add_violation`, `get_user_violation_count`,
  `get_group_violation_count` and `cleanup_expired_records` embeds the
  in-memory violation ledger.  The Python `defaultdict` dictionaries are
  represented as insertion-ordered association lists, and the wall clock
  (`time.time()`) is passed explicitly as an integer `now` parameter.
* `get_group_config` embeds `GroupAipReviewPlugin.get_group_config` over a
  generic string-keyed configuration dictionary model (`ConfDict`).
* `handle_audit_result` (with `handle_non_compliant`,
  `check_and_apply_punishment`, `handle_suspicious`, `handle_audit_failure`,
  `send_notification`) embeds the escalation engine.  Awaited platform calls
  (recall, mute, kick, whole-group ban, group/private notifications) are
  fire-and-forget in the source (every failure is caught and logged), so
  they are modelled as an emitted list of `Action` values, while the ledger
  is threaded as explicit state.
* `on_message` / `process_message` embed the gating logic of
  `GroupAipReviewPlugin.on_message` and the per-content-unit audit fan-out,
  with the external Baidu classifier supplied as an oracle function.
-/

namespace AipReview

/-- Python truthiness of an optional string (`if s:`): `None` and the empty
string are falsy, every other string is truthy. -/
def truthyOpt : Option String → Bool
  | none => false
  | some s => s != ""

/-- One platform side effect requested by the engine.  In the source these
are awaited calls on the bot client / platform manager; each one is wrapped
in `try/except` and never propagates an error, so an emitted action list is
a faithful model of the decision logic. -/
inductive Action where
  | recallMessage
  | notifyGroup (target msg : String)
  | notifyPrivate (target msg : String)
  | muteUser (duration : Int)
  | kickUser (block : Bool)
  | muteAllMembers
deriving DecidableEq, Repr

/-- Embeds the `AuditData` class: the per-content-unit audit context.
`group_id` is the value of `event.get_group_id()` (absent for private
chats). -/
structure AuditData where
  audit_type : String
  result : String
  reason : String
  group_name : String
  user_nickname : String
  user_id : String
  group_id : Option String
deriving DecidableEq, Repr

/-! ## Verdict interpreter (`AuditResultParser`) -/

/-- One entry of the `data` list of a raw Baidu response: a dict that may
carry a `msg` field and may carry a `type` field. -/
structure RawItem where
  msg : Option String
  type : Option String
deriving DecidableEq, Repr

/-- A raw classifier response: a dict that may carry an `error` field, a
`conclusion` field and a `data` field (`result.get("conclusion", "")` and
`result.get("data", [])` supply the defaults for absent fields). -/
structure RawResult where
  error : Option String
  conclusion : Option String
  data : Option (List RawItem)
deriving DecidableEq, Repr

/-- Embeds `AuditResultParser.parse_text_result`. -/
def parse_text_result (result : RawResult) : String × String :=
  match result.error with
  | some e => ("审核失败", e)
  | none =>
    let conclusion := result.conclusion.getD ""
    let data := result.data.getD []
    if conclusion = "合规" then ("合规", "")
    else if conclusion = "不合规" then
      ("不合规", String.intercalate ", " (data.filterMap (fun item => item.msg)))
    else if conclusion = "疑似" then ("疑似", "内容疑似违规，需要人工审核")
    else ("审核失败", "未知审核结果")

/-- Embeds `AuditResultParser.parse_image_result`. -/
def parse_image_result (result : RawResult) : String × String :=
  match result.error with
  | some e => ("审核失败", e)
  | none =>
    let conclusion := result.conclusion.getD ""
    let data := result.data.getD []
    if conclusion = "合规" then ("合规", "")
    else if conclusion = "不合规" then
      ("不合规", String.intercalate ", "
        (data.filterMap (fun item =>
          match item.msg with
          | some m => some m
          | none => item.type)))
    else if conclusion = "疑似" then ("疑似", "图片疑似违规，需要人工审核")
    else ("审核失败", "未知审核结果")

/-! ## Violation ledger (`ViolationManager`)

The two `defaultdict(list)` dictionaries are modelled as insertion-ordered
association lists; timestamps are integers and the clock is explicit. -/

/-- Dictionary read: value of the first entry with the given key. -/
def alistGet? {κ α : Type} [DecidableEq κ] (d : List (κ × α)) (k : κ) : Option α :=
  (d.find? (fun p => decide (p.1 = k))).map Prod.snd

/-- `defaultdict(list)` append: `d[k].append(v)` appends to the existing
entry of `k`, or creates a fresh single-element entry at the end. -/
def alistAppend {κ : Type} [DecidableEq κ] (d : List (κ × List Int)) (k : κ) (v : Int) :
    List (κ × List Int) :=
  match d with
  | [] => [(k, [v])]
  | (k₀, l₀) :: rest =>
    if k₀ = k then (k₀, l₀ ++ [v]) :: rest else (k₀, l₀) :: alistAppend rest k v

/-- One cleanup pass of `_cleanup_expired_records` over one dictionary:
keep only timestamps strictly above the cutoff, and drop entries whose
series became empty. -/
def cleanList {κ : Type} (d : List (κ × List Int)) (cutoff : Int) : List (κ × List Int) :=
  (d.map (fun p => (p.1, p.2.filter (fun ts => decide (ts > cutoff))))).filter
    (fun p => !p.2.isEmpty)

/-- Embeds the `ViolationManager` state: per-(group, user) and per-group
timestamp series. -/
structure ViolationManager where
  user_violations : List ((String × String) × List Int)
  group_violations : List (String × List Int)
deriving DecidableEq, Repr

/-- The initial, empty ledger (`ViolationManager.__init__`). -/
def ViolationManager.empty : ViolationManager := ⟨[], []⟩

/-- Embeds `ViolationManager._cleanup_expired_records`: drop all events
whose timestamp is at most `now - 86400` from both dictionaries. -/
def cleanup_expired_records (vm : ViolationManager) (now : Int) : ViolationManager :=
  { user_violations := cleanList vm.user_violations (now - 86400)
  , group_violations := cleanList vm.group_violations (now - 86400) }

/-- Embeds `ViolationManager.add_violation`: append `now` to both series
and run the synchronous cleanup pass.  The `violation_type` argument is
accepted and ignored, exactly as in the source. -/
def add_violation (vm : ViolationManager) (group_id user_id : String)
    (_violation_type : String) (now : Int) : ViolationManager :=
  let vm' : ViolationManager :=
    { user_violations := alistAppend vm.user_violations (group_id, user_id) now
    , group_violations := alistAppend vm.group_violations group_id now }
  cleanup_expired_records vm' now

/-- Embeds `ViolationManager.get_user_violation_count`: `0` for an unknown
key, otherwise the number of recorded timestamps strictly greater than
`now - time_window`. -/
def get_user_violation_count (vm : ViolationManager) (group_id user_id : String)
    (time_window now : Int) : Int :=
  match alistGet? vm.user_violations (group_id, user_id) with
  | none => 0
  | some violations =>
    ((violations.filter (fun ts => decide (ts > now - time_window))).length : Int)

/-- Embeds `ViolationManager.get_group_violation_count`. -/
def get_group_violation_count (vm : ViolationManager) (group_id : String)
    (time_window now : Int) : Int :=
  match alistGet? vm.group_violations group_id with
  | none => 0
  | some violations =>
    ((violations.filter (fun ts => decide (ts > now - time_window))).length : Int)

/-! ## Effective per-group policy and the escalation engine -/

/-- The effective policy for one group, as read field by field from the
resolved configuration dictionary by the handlers.  Each default value is
the literal default of the corresponding `group_config.get(key, default)`
call in the source. -/
structure GroupPolicy where
  rule_id : String := "default"
  notify_group_id : Option String := none
  admin_id : Option String := none
  time_window : Int := 300
  single_user_violation_threshold : Int := 3
  mute_duration : Int := 86400
  kick_user_threshold : Int := 5
  kick_user : Bool := false
  is_kick_user_and_block : Bool := false
  group_violation_threshold : Int := 5
deriving DecidableEq, Repr

/-- Embeds `GroupAipReviewPlugin._send_notification`: when the resolved
policy carries a truthy `notify_group_id`, one group message is sent to it,
with the group and user context appended to the text; otherwise nothing is
sent. -/
def send_notification (cfg : GroupPolicy) (ad : AuditData) (g msg : String) : List Action :=
  match cfg.notify_group_id with
  | none => []
  | some tgt =>
    if tgt = "" then []
    else
      [Action.notifyGroup tgt
        (msg ++ "\n群：" ++ ad.group_name ++ "（" ++ g ++ "）\n用户：" ++
          ad.user_nickname ++ "（" ++ ad.user_id ++ "）")]

/-- Embeds `GroupAipReviewPlugin._kick_user`: the kick call followed by its
notification. -/
def kick_user_actions (ad : AuditData) (g : String) (cfg : GroupPolicy) (block : Bool) :
    List Action :=
  Action.kickUser block ::
    send_notification cfg ad g
      ("⚠️ 用户被踢出群聊\n群ID: " ++ g ++ "\n用户ID: " ++ ad.user_id ++
        "\n是否拉黑: " ++ (if block then "是" else "否") ++ "\n规则ID: " ++ cfg.rule_id)

/-- Embeds `GroupAipReviewPlugin._check_and_apply_punishment`: the two
independent escalation ladders, evaluated over the current ledger state. -/
def check_and_apply_punishment (vm : ViolationManager) (ad : AuditData) (g : String)
    (cfg : GroupPolicy) (now : Int) : List Action :=
  let time_window := cfg.time_window
  let user_violations := get_user_violation_count vm g ad.user_id time_window now
  let single_threshold := cfg.single_user_violation_threshold
  let userActs :=
    if single_threshold > 0 ∧ user_violations ≥ single_threshold then
      Action.muteUser cfg.mute_duration ::
        send_notification cfg ad g
          ("⚠️ 用户违规禁言通知\n群ID: " ++ g ++ "\n用户ID: " ++ ad.user_id ++
            "\n违规次数: " ++ toString user_violations ++ "次\n已禁言 " ++
            toString (Int.fdiv cfg.mute_duration 3600) ++
            " 小时，请管理员关注。\n规则ID: " ++ cfg.rule_id) ++
        (if cfg.kick_user_threshold > 0 ∧ user_violations ≥ cfg.kick_user_threshold ∧
            cfg.kick_user = true then
          kick_user_actions ad g cfg cfg.is_kick_user_and_block
        else [])
    else []
  let group_violations := get_group_violation_count vm g time_window now
  let groupActs :=
    if cfg.group_violation_threshold > 0 ∧ group_violations ≥ cfg.group_violation_threshold then
      Action.muteAllMembers ::
        send_notification cfg ad g
          ("⚠️ 群内出现大量违规内容\n群ID: " ++ g ++ "\n违规次数: " ++
            toString group_violations ++ "次\n已开启全员禁言，请管理员及时处理\n规则ID: " ++
            cfg.rule_id)
    else []
  userActs ++ groupActs

/-- Embeds `GroupAipReviewPlugin._handle_non_compliant`: record the
violation, recall the message, notify, then run the punishment check over
the updated ledger. -/
def handle_non_compliant (vm : ViolationManager) (ad : AuditData) (g : String)
    (cfg : GroupPolicy) (now : Int) : ViolationManager × List Action :=
  let vm' := add_violation vm g ad.user_id ad.audit_type now
  (vm',
    Action.recallMessage ::
      send_notification cfg ad g
        ("⚠️ 检测到违规内容\n类型: " ++ ad.audit_type ++ "\n用户: " ++ ad.user_id ++
          "\n原因: " ++ ad.reason ++ "\n规则ID: " ++ cfg.rule_id) ++
      check_and_apply_punishment vm' ad g cfg now)

/-- The manual-review notification text of
`GroupAipReviewPlugin._handle_suspicious`. -/
def suspicious_notification (ad : AuditData) (rule_id : String) : String :=
  "❓ 检测到疑似违规内容\n类型: " ++ ad.audit_type ++ "\n用户: " ++ ad.user_id ++
    "\n原因: " ++ ad.reason ++ "\n规则ID: " ++ rule_id ++ "\n请管理员核实处理"

/-- Embeds `GroupAipReviewPlugin._handle_suspicious`: only the notification
asking for manual review. -/
def handle_suspicious (ad : AuditData) (g : String) (cfg : GroupPolicy) : List Action :=
  send_notification cfg ad g (suspicious_notification ad cfg.rule_id)

/-- The admin notification text of
`GroupAipReviewPlugin._handle_audit_failure`. -/
def audit_failure_notification (audit_type reason : String) : String :=
  "⚠️ 审核失败通知\n类型: " ++ audit_type ++ "\n原因: " ++ reason ++
    "\n请检查API配置或网络连接"

/-- Embeds `GroupAipReviewPlugin._handle_audit_failure` together with
`_send_private_message`: a private message to a truthy `admin_id`, nothing
otherwise. -/
def handle_audit_failure (ad : AuditData) (cfg : GroupPolicy) : List Action :=
  match cfg.admin_id with
  | none => []
  | some aid =>
    if aid = "" then []
    else [Action.notifyPrivate aid (audit_failure_notification ad.audit_type ad.reason)]

/-- Embeds `GroupAipReviewPlugin._handle_audit_result`: the dispatch over
the four verdict strings, after the private-chat guard.  `cfg` is the
effective policy resolved for the group (`get_group_config`). -/
def handle_audit_result (vm : ViolationManager) (ad : AuditData) (cfg : GroupPolicy)
    (now : Int) : ViolationManager × List Action :=
  match ad.group_id with
  | none => (vm, [])
  | some g =>
    if g = "" then (vm, [])
    else if ad.result = "合规" then (vm, [])
    else if ad.result = "不合规" then handle_non_compliant vm ad g cfg now
    else if ad.result = "疑似" then (vm, handle_suspicious ad g cfg)
    else if ad.result = "审核失败" then (vm, handle_audit_failure ad cfg)
    else (vm, [])

/-! ## Policy resolution (`get_group_config`) over the raw dictionaries -/

/-- A configuration value: string, integer or boolean. -/
inductive CVal where
  | s (v : String)
  | i (v : Int)
  | b (v : Bool)
deriving DecidableEq, Repr

/-- A configuration dictionary: string keys in insertion order. -/
abbrev ConfDict := List (String × CVal)

/-- `d.get(k)`: value of the first entry with key `k`. -/
def dictFind? (d : ConfDict) (k : String) : Option CVal :=
  (d.find? (fun p => decide (p.1 = k))).map Prod.snd

/-- `d[k] = v`: replace the value of an existing key in place, or append a
new entry at the end. -/
def dictSet (d : ConfDict) (k : String) (v : CVal) : ConfDict :=
  match d with
  | [] => [(k, v)]
  | (k₀, v₀) :: rest =>
    if k₀ = k then (k₀, v) :: rest else (k₀, v₀) :: dictSet rest k v

/-- The override-application loop body of `get_group_config`: copy every
field of the matching entry except `group_id` and `__template_key`. -/
def applyOverride (base : ConfDict) (cc : ConfDict) : ConfDict :=
  cc.foldl
    (fun acc kv =>
      if kv.1 = "group_id" ∨ kv.1 = "__template_key" then acc
      else dictSet acc kv.1 kv.2)
    base

/-- Embeds `GroupAipReviewPlugin.get_group_config`: start from a copy of
the default configuration, find the first entry of `group_custom` whose
`group_id` equals the queried group, and overlay its fields. -/
def get_group_config (default_config : ConfDict) (group_custom : List ConfDict)
    (group_id : String) : ConfDict :=
  match group_custom.find?
      (fun cc => decide (dictFind? cc "group_id" = some (CVal.s group_id))) with
  | none => default_config
  | some cc => applyOverride default_config cc

/-! ## Message-event gating (`on_message`) and the audit pipeline -/

/-- The fields of an inbound message event that the gating logic reads. -/
structure MessageEvent where
  group_id : Option String
  message_str : String
  image_urls : List String
  group_name : String
  user_nickname : String
  user_id : String
deriving DecidableEq, Repr

/-- One audit job produced by `on_message`: the text body or one image. -/
inductive AuditReq where
  | text (s : String)
  | image (url : String)
deriving DecidableEq, Repr

/-- Embeds the gating part of `GroupAipReviewPlugin.on_message`: private
chats, groups outside the enabled list, and an unavailable classifier all
short-circuit to no audits; otherwise one audit job per enabled content
unit. -/
def on_message (enabled_groups : List String) (baidu_available : Bool)
    (enable_text_censor enable_image_censor : Bool) (ev : MessageEvent) : List AuditReq :=
  match ev.group_id with
  | none => []
  | some g =>
    if g = "" then []
    else if enabled_groups.isEmpty || !(enabled_groups.contains g) then []
    else if !baidu_available then []
    else
      (if enable_text_censor && ev.message_str != "" then [AuditReq.text ev.message_str]
       else []) ++
      (if enable_image_censor then ev.image_urls.map AuditReq.image else [])

/-- Builds the `AuditData` for one content unit, as `_audit_text` /
`_audit_image` do. -/
def mkAuditData (ev : MessageEvent) (audit_type result reason : String) : AuditData :=
  ⟨audit_type, result, reason, ev.group_name, ev.user_nickname, ev.user_id, ev.group_id⟩

/-- The full pipeline for one inbound event: gate, classify each content
unit through the supplied classifier oracles, and handle every verdict in
sequence, threading the ledger. -/
def process_message (classify_text classify_image : String → RawResult)
    (enabled_groups : List String) (baidu_available : Bool)
    (enable_text_censor enable_image_censor : Bool) (cfg : GroupPolicy)
    (ev : MessageEvent) (vm : ViolationManager) (now : Int) :
    ViolationManager × List Action :=
  (on_message enabled_groups baidu_available enable_text_censor enable_image_censor ev).foldl
    (fun st req =>
      let ad :=
        match req with
        | AuditReq.text s =>
          let r := parse_text_result (classify_text s)
          mkAuditData ev "文本" r.1 r.2
        | AuditReq.image url =>
          let r := parse_image_result (classify_image url)
          mkAuditData ev "图片" r.1 r.2
      let next := handle_audit_result st.1 ad cfg now
      (next.1, st.2 ++ next.2))
    (vm, [])

/-- A sequence of `add_violation` calls for one (group, user) key starting
from the empty ledger, at the given timestamps. -/
def recordSeq (g u : String) (ts : List Int) : ViolationManager :=
  ts.foldl (fun vm t => add_violation vm g u "" t) ViolationManager.empty

/-! ## Theorems -/

/-- Claim C6: for every raw classifier response, the text and image result
interpreters each return exactly one of the four canonical verdict labels,
with an error field mapping to the failure verdict carrying the error text
as reason, and any unrecognized conclusion label mapping to the failure
verdict with reason "未知审核结果" ("unknown audit result").  Both
interpreters are total Lean functions, so no other outcome (and no
exception) is possible. -/
theorem c6_interpreter_totality (r : RawResult) :
    ((parse_text_result r).1 = "合规" ∨ (parse_text_result r).1 = "不合规" ∨
      (parse_text_result r).1 = "疑似" ∨ (parse_text_result r).1 = "审核失败") ∧
    ((parse_image_result r).1 = "合规" ∨ (parse_image_result r).1 = "不合规" ∨
      (parse_image_result r).1 = "疑似" ∨ (parse_image_result r).1 = "审核失败") ∧
    (∀ e, r.error = some e →
      parse_text_result r = ("审核失败", e) ∧ parse_image_result r = ("审核失败", e)) ∧
    (r.error = none → r.conclusion.getD "" ≠ "合规" → r.conclusion.getD "" ≠ "不合规" →
      r.conclusion.getD "" ≠ "疑似" →
      parse_text_result r = ("审核失败", "未知审核结果") ∧
      parse_image_result r = ("审核失败", "未知审核结果")) := by
  obtain ⟨err, conc, data⟩ := r
  refine ⟨?_, ?_, ?_, ?_⟩ <;> cases err <;>
    simp [parse_text_result, parse_image_result] <;> split_ifs <;> simp_all

/-- Witness for C6 at two concrete raw responses: an error field wins even
over a recognized conclusion, and an unrecognized conclusion yields the
failure verdict with the fixed reason. -/
theorem c6_interpreter_totality_witness :
    parse_text_result ⟨some "boom", some "合规", none⟩ = ("审核失败", "boom") ∧
    parse_image_result ⟨none, some "奇怪", none⟩ = ("审核失败", "未知审核结果") := by
  refine ⟨?_, ?_⟩
  · exact ((c6_interpreter_totality ⟨some "boom", some "合规", none⟩).2.2.1 "boom" rfl).1
  · exact ((c6_interpreter_totality ⟨none, some "奇怪", none⟩).2.2.2 rfl (by decide)
      (by decide) (by decide)).2

/-- Claim C7: for a non-compliant response the text interpreter joins with
", " exactly the `msg` fields of the items that have one (items without a
`msg` are skipped), while the image interpreter falls back to the item's
`type` tag when `msg` is absent.  The final two conjuncts contrast the two
interpreters on a concrete item that has only a `type` tag. -/
theorem c7_noncompliant_reason (r : RawResult) (he : r.error = none)
    (hc : r.conclusion.getD "" = "不合规") :
    (parse_text_result r).2 =
      String.intercalate ", "
        (((r.data.getD []).filter (fun item => item.msg.isSome)).map
          (fun item => item.msg.getD "")) ∧
    (parse_image_result r).2 =
      String.intercalate ", "
        ((r.data.getD []).filterMap (fun item => item.msg.orElse (fun _ => item.type))) ∧
    parse_text_result ⟨none, some "不合规", some [⟨none, some "spam"⟩]⟩ = ("不合规", "") ∧
    parse_image_result ⟨none, some "不合规", some [⟨none, some "spam"⟩]⟩ =
      ("不合规", "spam") := by
  obtain ⟨err, conc, data⟩ := r
  simp only at he hc
  subst he
  have hmsg : ∀ (l : List RawItem),
      l.filterMap (fun item => item.msg) =
        (l.filter (fun item => item.msg.isSome)).map (fun item => item.msg.getD "") := by
    intro l
    induction l with
    | nil => rfl
    | cons hd tl ih => cases h : hd.msg <;> simp [h, ih]
  have htype : (fun item : RawItem =>
      match item.msg with
      | some m => some m
      | none => item.type) = fun item => item.msg.orElse (fun _ => item.type) := by
    funext item
    cases h : item.msg <;> rfl
  refine ⟨?_, ?_, by decide, by decide⟩
  · simp [parse_text_result, hc, hmsg]
  · simp [parse_image_result, hc, htype]

/-- Witness for C7 at a concrete non-compliant response with one
message-bearing item and one item carrying only a type tag. -/
theorem c7_noncompliant_reason_witness :
    (parse_text_result ⟨none, some "不合规", some [⟨some "a", none⟩, ⟨none, some "t"⟩]⟩).2 =
      "a" ∧
    (parse_image_result ⟨none, some "不合规", some [⟨some "a", none⟩, ⟨none, some "t"⟩]⟩).2 =
      "a, t" := by
  have h := c7_noncompliant_reason
    ⟨none, some "不合规", some [⟨some "a", none⟩, ⟨none, some "t"⟩]⟩ rfl rfl
  exact ⟨h.1.trans (by decide), h.2.1.trans (by decide)⟩

/-! ### Helper lemmas about notification lists and the punishment check -/

lemma mem_send_notification {cfg : GroupPolicy} {ad : AuditData} {g msg : String}
    {a : Action} (h : a ∈ send_notification cfg ad g msg) :
    ∃ t s, a = Action.notifyGroup t s := by
  unfold send_notification at h
  cases hng : cfg.notify_group_id with
  | none => rw [hng] at h; simp at h
  | some tgt =>
    rw [hng] at h
    by_cases ht : tgt = ""
    · simp [ht] at h
    · simp [ht] at h
      exact ⟨tgt, _, h⟩

@[simp] lemma muteUser_not_mem_send_notification (cfg : GroupPolicy) (ad : AuditData)
    (g msg : String) (d : Int) : Action.muteUser d ∉ send_notification cfg ad g msg := by
  intro h
  obtain ⟨t, s, hts⟩ := mem_send_notification h
  simp at hts

@[simp] lemma kickUser_not_mem_send_notification (cfg : GroupPolicy) (ad : AuditData)
    (g msg : String) (b : Bool) : Action.kickUser b ∉ send_notification cfg ad g msg := by
  intro h
  obtain ⟨t, s, hts⟩ := mem_send_notification h
  simp at hts

@[simp] lemma muteAllMembers_not_mem_send_notification (cfg : GroupPolicy) (ad : AuditData)
    (g msg : String) : Action.muteAllMembers ∉ send_notification cfg ad g msg := by
  intro h
  obtain ⟨t, s, hts⟩ := mem_send_notification h
  simp at hts

@[simp] lemma recallMessage_not_mem_send_notification (cfg : GroupPolicy) (ad : AuditData)
    (g msg : String) : Action.recallMessage ∉ send_notification cfg ad g msg := by
  intro h
  obtain ⟨t, s, hts⟩ := mem_send_notification h
  simp at hts

@[simp] lemma notifyPrivate_not_mem_send_notification (cfg : GroupPolicy) (ad : AuditData)
    (g msg : String) (t' m' : String) :
    Action.notifyPrivate t' m' ∉ send_notification cfg ad g msg := by
  intro h
  obtain ⟨t, s, hts⟩ := mem_send_notification h
  simp at hts

lemma muteUser_mem_check_iff (vm : ViolationManager) (ad : AuditData) (g : String)
    (cfg : GroupPolicy) (now : Int) (d : Int) :
    Action.muteUser d ∈ check_and_apply_punishment vm ad g cfg now ↔
      d = cfg.mute_duration ∧ cfg.single_user_violation_threshold > 0 ∧
        get_user_violation_count vm g ad.user_id cfg.time_window now ≥
          cfg.single_user_violation_threshold := by
  simp only [check_and_apply_punishment]
  split_ifs with h1 h2 h3 h3 <;>
    simp_all [kick_user_actions, List.mem_append, List.mem_cons]

lemma kickUser_mem_check_iff (vm : ViolationManager) (ad : AuditData) (g : String)
    (cfg : GroupPolicy) (now : Int) (b : Bool) :
    Action.kickUser b ∈ check_and_apply_punishment vm ad g cfg now ↔
      b = cfg.is_kick_user_and_block ∧
      (cfg.single_user_violation_threshold > 0 ∧
        get_user_violation_count vm g ad.user_id cfg.time_window now ≥
          cfg.single_user_violation_threshold) ∧
      (cfg.kick_user_threshold > 0 ∧
        get_user_violation_count vm g ad.user_id cfg.time_window now ≥
          cfg.kick_user_threshold ∧ cfg.kick_user = true) := by
  simp only [check_and_apply_punishment]
  split_ifs with h1 h2 h3 h3 <;>
    simp_all [kick_user_actions, List.mem_append, List.mem_cons]

lemma muteAllMembers_mem_check_iff (vm : ViolationManager) (ad : AuditData) (g : String)
    (cfg : GroupPolicy) (now : Int) :
    Action.muteAllMembers ∈ check_and_apply_punishment vm ad g cfg now ↔
      cfg.group_violation_threshold > 0 ∧
        get_group_violation_count vm g cfg.time_window now ≥
          cfg.group_violation_threshold := by
  simp only [check_and_apply_punishment]
  split_ifs with h1 h2 h3 h3 <;>
    simp_all [kick_user_actions, List.mem_append, List.mem_cons]

lemma handle_non_compliant_acts (vm : ViolationManager) (ad : AuditData) (g : String)
    (cfg : GroupPolicy) (now : Int) :
    (handle_non_compliant vm ad g cfg now).2 =
      Action.recallMessage ::
        send_notification cfg ad g
          ("⚠️ 检测到违规内容\n类型: " ++ ad.audit_type ++ "\n用户: " ++ ad.user_id ++
            "\n原因: " ++ ad.reason ++ "\n规则ID: " ++ cfg.rule_id) ++
        check_and_apply_punishment (add_violation vm g ad.user_id ad.audit_type now)
          ad g cfg now := rfl

/-- Claim C1: on every non-compliant evaluation the engine mutes exactly
when the per-user windowed count (taken after recording this violation)
reaches `single_user_violation_threshold` with that threshold positive;
it kicks exactly when, in addition, the same count reaches a positive
`kick_user_threshold` and `kick_user` is enabled; and, independently, it
enables whole-group lockdown exactly when the per-group windowed count
reaches a positive `group_violation_threshold`.  The final conjunct checks
the concrete ladder of the specification (thresholds 3 and 5, kick
enabled): no mute after two violations, a single mute on the third, and a
kick in addition to the mute on the fifth. -/
theorem c1_escalation_ladder :
    (∀ (vm : ViolationManager) (ad : AuditData) (g : String) (cfg : GroupPolicy) (now : Int),
      (Action.muteUser cfg.mute_duration ∈ (handle_non_compliant vm ad g cfg now).2 ↔
        cfg.single_user_violation_threshold > 0 ∧
          get_user_violation_count (add_violation vm g ad.user_id ad.audit_type now)
              g ad.user_id cfg.time_window now ≥ cfg.single_user_violation_threshold) ∧
      ((∃ b, Action.kickUser b ∈ (handle_non_compliant vm ad g cfg now).2) ↔
        (cfg.single_user_violation_threshold > 0 ∧
          get_user_violation_count (add_violation vm g ad.user_id ad.audit_type now)
              g ad.user_id cfg.time_window now ≥ cfg.single_user_violation_threshold) ∧
        (cfg.kick_user_threshold > 0 ∧
          get_user_violation_count (add_violation vm g ad.user_id ad.audit_type now)
              g ad.user_id cfg.time_window now ≥ cfg.kick_user_threshold ∧
          cfg.kick_user = true)) ∧
      (Action.muteAllMembers ∈ (handle_non_compliant vm ad g cfg now).2 ↔
        cfg.group_violation_threshold > 0 ∧
          get_group_violation_count (add_violation vm g ad.user_id ad.audit_type now)
              g cfg.time_window now ≥ cfg.group_violation_threshold)) ∧
    (let cfgS : GroupPolicy :=
      { single_user_violation_threshold := 3, kick_user_threshold := 5,
        kick_user := true, group_violation_threshold := 0 }
     let adS : AuditData := ⟨"文本", "不合规", "r", "gn", "nick", "u1", some "g1"⟩
     let s1 := handle_non_compliant ViolationManager.empty adS "g1" cfgS 0
     let s2 := handle_non_compliant s1.1 adS "g1" cfgS 1
     let s3 := handle_non_compliant s2.1 adS "g1" cfgS 2
     let s4 := handle_non_compliant s3.1 adS "g1" cfgS 3
     let s5 := handle_non_compliant s4.1 adS "g1" cfgS 4
     Action.muteUser 86400 ∉ s1.2 ∧ Action.muteUser 86400 ∉ s2.2 ∧
       s3.2.count (Action.muteUser 86400) = 1 ∧
       Action.kickUser false ∉ s3.2 ∧ Action.kickUser true ∉ s3.2 ∧
       Action.muteUser 86400 ∈ s5.2 ∧ Action.kickUser false ∈ s5.2) := by
  constructor
  · intro vm ad g cfg now
    refine ⟨?_, ?_, ?_⟩
    · rw [handle_non_compliant_acts]
      simp [muteUser_mem_check_iff]
    · rw [handle_non_compliant_acts]
      simp [kickUser_mem_check_iff]
    · rw [handle_non_compliant_acts]
      simp [muteAllMembers_mem_check_iff]
  · decide

/-- Claim C4: a non-positive threshold disables its escalation rung on
every non-compliant evaluation: no mute (hence no kick) when
`single_user_violation_threshold ≤ 0`, no kick when
`kick_user_threshold ≤ 0`, and no whole-group lockdown when
`group_violation_threshold ≤ 0`, whatever the accumulated counts. -/
theorem c4_zero_threshold_disables (vm : ViolationManager) (ad : AuditData) (g : String)
    (cfg : GroupPolicy) (now : Int) :
    (cfg.single_user_violation_threshold ≤ 0 →
      (∀ d, Action.muteUser d ∉ (handle_non_compliant vm ad g cfg now).2) ∧
      (∀ b, Action.kickUser b ∉ (handle_non_compliant vm ad g cfg now).2)) ∧
    (cfg.kick_user_threshold ≤ 0 →
      ∀ b, Action.kickUser b ∉ (handle_non_compliant vm ad g cfg now).2) ∧
    (cfg.group_violation_threshold ≤ 0 →
      Action.muteAllMembers ∉ (handle_non_compliant vm ad g cfg now).2) := by
  refine ⟨fun h => ⟨fun d hd => ?_, fun b hb => ?_⟩, fun h b hb => ?_, fun h hm => ?_⟩
  · rw [handle_non_compliant_acts] at hd
    simp [muteUser_mem_check_iff] at hd
    omega
  · rw [handle_non_compliant_acts] at hb
    simp [kickUser_mem_check_iff] at hb
    omega
  · rw [handle_non_compliant_acts] at hb
    simp [kickUser_mem_check_iff] at hb
    omega
  · rw [handle_non_compliant_acts] at hm
    simp [muteAllMembers_mem_check_iff] at hm
    omega

/-- Witness for C4: with every threshold set to zero, a concrete evaluation
fires neither mute, nor kick, nor lockdown. -/
theorem c4_zero_threshold_disables_witness :
    Action.muteUser 86400 ∉
      (handle_non_compliant ViolationManager.empty
        ⟨"文本", "不合规", "r", "gn", "nick", "u1", some "g1"⟩ "g1"
        { single_user_violation_threshold := 0, kick_user_threshold := 0,
          kick_user := true, group_violation_threshold := 0 } 0).2 ∧
    Action.kickUser true ∉
      (handle_non_compliant ViolationManager.empty
        ⟨"文本", "不合规", "r", "gn", "nick", "u1", some "g1"⟩ "g1"
        { single_user_violation_threshold := 0, kick_user_threshold := 0,
          kick_user := true, group_violation_threshold := 0 } 0).2 ∧
    Action.muteAllMembers ∉
      (handle_non_compliant ViolationManager.empty
        ⟨"文本", "不合规", "r", "gn", "nick", "u1", some "g1"⟩ "g1"
        { single_user_violation_threshold := 0, kick_user_threshold := 0,
          kick_user := true, group_violation_threshold := 0 } 0).2 := by
  have h := c4_zero_threshold_disables ViolationManager.empty
    ⟨"文本", "不合规", "r", "gn", "nick", "u1", some "g1"⟩ "g1"
    { single_user_violation_threshold := 0, kick_user_threshold := 0,
      kick_user := true, group_violation_threshold := 0 } 0
  exact ⟨(h.1 (by decide)).1 86400, (h.1 (by decide)).2 true, h.2.2 (by decide)⟩

/-- Claim C8: handling a suspicious or compliant verdict leaves the ledger
unchanged and triggers no recall, mute, kick, private message or group
lockdown; a compliant verdict emits nothing at all, and a suspicious
verdict emits nothing beyond the manual-review group notification (which
is absent exactly when no notify target is configured). -/
theorem c8_suspicious_compliant_frame (vm : ViolationManager) (ad : AuditData)
    (cfg : GroupPolicy) (now : Int) (hr : ad.result = "疑似" ∨ ad.result = "合规") :
    (handle_audit_result vm ad cfg now).1 = vm ∧
    (∀ d, Action.muteUser d ∉ (handle_audit_result vm ad cfg now).2) ∧
    (∀ b, Action.kickUser b ∉ (handle_audit_result vm ad cfg now).2) ∧
    Action.muteAllMembers ∉ (handle_audit_result vm ad cfg now).2 ∧
    Action.recallMessage ∉ (handle_audit_result vm ad cfg now).2 ∧
    (∀ t m, Action.notifyPrivate t m ∉ (handle_audit_result vm ad cfg now).2) ∧
    (ad.result = "合规" → (handle_audit_result vm ad cfg now).2 = []) ∧
    (ad.result = "疑似" → (handle_audit_result vm ad cfg now).2 = [] ∨
      ∃ g, ad.group_id = some g ∧
        (handle_audit_result vm ad cfg now).2 = handle_suspicious ad g cfg) := by
  unfold handle_audit_result
  cases hg : ad.group_id with
  | none => simp
  | some g =>
    by_cases hgg : g = ""
    · simp [hgg]
    · rcases hr with hr | hr <;> simp [hgg, hr, handle_suspicious]

/-- Witness for C8 at a concrete suspicious verdict with a configured
notify target. -/
theorem c8_suspicious_compliant_frame_witness :
    (handle_audit_result ViolationManager.empty
        ⟨"文本", "疑似", "r", "gn", "nick", "u1", some "g1"⟩
        { notify_group_id := some "n1" } 0).1 = ViolationManager.empty ∧
    Action.muteUser 86400 ∉
      (handle_audit_result ViolationManager.empty
        ⟨"文本", "疑似", "r", "gn", "nick", "u1", some "g1"⟩
        { notify_group_id := some "n1" } 0).2 ∧
    Action.recallMessage ∉
      (handle_audit_result ViolationManager.empty
        ⟨"文本", "疑似", "r", "gn", "nick", "u1", some "g1"⟩
        { notify_group_id := some "n1" } 0).2 := by
  have h := c8_suspicious_compliant_frame ViolationManager.empty
    ⟨"文本", "疑似", "r", "gn", "nick", "u1", some "g1"⟩
    { notify_group_id := some "n1" } 0 (Or.inl rfl)
  exact ⟨h.1, h.2.1 86400, h.2.2.2.2.1⟩

/-- Claim C9: handling a classification-failure verdict of a group message
leaves the ledger unchanged, triggers no recall and no punishment, never
messages the group notify target, and sends exactly one private message to
the configured admin identifier precisely when that identifier is truthy
(configured and non-empty). -/
theorem c9_failure_routing (vm : ViolationManager) (ad : AuditData) (cfg : GroupPolicy)
    (now : Int) (h1 : ad.result = "审核失败") (h2 : truthyOpt ad.group_id = true) :
    (handle_audit_result vm ad cfg now).1 = vm ∧
    (∀ t m, Action.notifyGroup t m ∉ (handle_audit_result vm ad cfg now).2) ∧
    (∀ d, Action.muteUser d ∉ (handle_audit_result vm ad cfg now).2) ∧
    (∀ b, Action.kickUser b ∉ (handle_audit_result vm ad cfg now).2) ∧
    Action.muteAllMembers ∉ (handle_audit_result vm ad cfg now).2 ∧
    Action.recallMessage ∉ (handle_audit_result vm ad cfg now).2 ∧
    (truthyOpt cfg.admin_id = true →
      ∃ aid, cfg.admin_id = some aid ∧
        (handle_audit_result vm ad cfg now).2 =
          [Action.notifyPrivate aid (audit_failure_notification ad.audit_type ad.reason)]) ∧
    (truthyOpt cfg.admin_id = false → (handle_audit_result vm ad cfg now).2 = []) := by
  unfold handle_audit_result
  cases hg : ad.group_id with
  | none => rw [hg] at h2; simp [truthyOpt] at h2
  | some g =>
    rw [hg] at h2
    simp [truthyOpt] at h2
    unfold handle_audit_failure
    cases hadm : cfg.admin_id with
    | none => simp [h2, h1, truthyOpt]
    | some aid =>
      by_cases haid : aid = "" <;> simp [h2, h1, truthyOpt, hadm, haid]

/-- Witness for C9 at a concrete failure verdict with a configured admin
identifier. -/
theorem c9_failure_routing_witness :
    (handle_audit_result ViolationManager.empty
        ⟨"文本", "审核失败", "API调用异常", "gn", "nick", "u1", some "g1"⟩
        { admin_id := some "admin7", notify_group_id := some "n1" } 0).1 =
      ViolationManager.empty ∧
    Action.notifyGroup "n1" "x" ∉
      (handle_audit_result ViolationManager.empty
        ⟨"文本", "审核失败", "API调用异常", "gn", "nick", "u1", some "g1"⟩
        { admin_id := some "admin7", notify_group_id := some "n1" } 0).2 ∧
    (∃ aid, ({ admin_id := some "admin7", notify_group_id := some "n1" } :
        GroupPolicy).admin_id = some aid ∧
      (handle_audit_result ViolationManager.empty
        ⟨"文本", "审核失败", "API调用异常", "gn", "nick", "u1", some "g1"⟩
        { admin_id := some "admin7", notify_group_id := some "n1" } 0).2 =
        [Action.notifyPrivate aid (audit_failure_notification "文本" "API调用异常")]) := by
  have h := c9_failure_routing ViolationManager.empty
    ⟨"文本", "审核失败", "API调用异常", "gn", "nick", "u1", some "g1"⟩
    { admin_id := some "admin7", notify_group_id := some "n1" } 0 rfl rfl
  exact ⟨h.1, h.2.1 "n1" "x", h.2.2.2.2.2.2.1 rfl⟩

/-- Claim C10: an inbound event with no (truthy) group identifier, or with
the enabled-groups list empty, or whose group is not in that list, produces
no audit job at all, and the full pipeline leaves the ledger unchanged and
emits no action, whatever the classifier would answer. -/
theorem c10_gate_noop (classify_text classify_image : String → RawResult)
    (enabled_groups : List String) (baidu_available : Bool)
    (enable_text_censor enable_image_censor : Bool) (cfg : GroupPolicy)
    (ev : MessageEvent) (vm : ViolationManager) (now : Int)
    (h : truthyOpt ev.group_id = false ∨ enabled_groups = [] ∨
      ∀ g, ev.group_id = some g → g ∉ enabled_groups) :
    on_message enabled_groups baidu_available enable_text_censor enable_image_censor ev
      = [] ∧
    process_message classify_text classify_image enabled_groups baidu_available
      enable_text_censor enable_image_censor cfg ev vm now = (vm, []) := by
  have hom : on_message enabled_groups baidu_available enable_text_censor
      enable_image_censor ev = [] := by
    unfold on_message
    cases hg : ev.group_id with
    | none => rfl
    | some g =>
      rcases h with h | h | h
      · rw [hg] at h
        simp [truthyOpt] at h
        simp [h]
      · simp [h]
      · have hng := h g hg
        by_cases hgg : g = ""
        · simp [hgg]
        · simp [hgg, hng]
  refine ⟨hom, ?_⟩
  unfold process_message
  rw [hom]
  rfl

/-- Witness for C10 at a concrete private-chat event (no group
identifier). -/
theorem c10_gate_noop_witness :
    on_message ["g1"] true true true ⟨none, "hello", ["u"], "gn", "nick", "u1"⟩ = [] ∧
    process_message (fun _ => ⟨none, some "合规", none⟩) (fun _ => ⟨none, some "合规", none⟩)
      ["g1"] true true true {} ⟨none, "hello", ["u"], "gn", "nick", "u1"⟩
      ViolationManager.empty 0 = (ViolationManager.empty, []) :=
  c10_gate_noop (fun _ => ⟨none, some "合规", none⟩) (fun _ => ⟨none, some "合规", none⟩)
    ["g1"] true true true {} ⟨none, "hello", ["u"], "gn", "nick", "u1"⟩
    ViolationManager.empty 0 (Or.inl rfl)

/-! ### Helper lemmas about configuration dictionaries -/

lemma dictFind?_cons (p : String × CVal) (d : ConfDict) (k : String) :
    dictFind? (p :: d) k = if p.1 = k then some p.2 else dictFind? d k := by
  by_cases h : p.1 = k <;> simp [dictFind?, List.find?_cons, h]

lemma dictFind?_eq_none_of_not_mem (d : ConfDict) (k : String)
    (h : k ∉ d.map Prod.fst) : dictFind? d k = none := by
  induction d with
  | nil => rfl
  | cons hd tl ih =>
    simp only [List.map_cons, List.mem_cons, not_or] at h
    rw [dictFind?_cons, if_neg (fun hh => h.1 hh.symm), ih h.2]

lemma dictFind?_dictSet (d : ConfDict) (k k' : String) (v : CVal) :
    dictFind? (dictSet d k v) k' = if k' = k then some v else dictFind? d k' := by
  induction d with
  | nil =>
    by_cases h : k' = k <;>
      simp [dictSet, dictFind?_cons, h, dictFind?, eq_comm]
  | cons hd tl ih =>
    by_cases h : hd.1 = k
    · rw [dictSet, if_pos h, dictFind?_cons, dictFind?_cons]
      by_cases h' : k' = k
      · rw [if_pos (h.trans h'.symm), if_pos h']
      · rw [if_neg (fun hh => h' (hh.symm.trans h)), if_neg h',
          if_neg (fun hh => h' (hh.symm.trans h))]
    · rw [dictSet, if_neg h, dictFind?_cons, dictFind?_cons, ih]
      by_cases h' : hd.1 = k'
      · rw [if_pos h', if_neg (fun hh => h (h'.trans hh)), if_pos h']
      · rw [if_neg h', if_neg h']

lemma dictFind?_applyOverride (cc : ConfDict) :
    ∀ (base : ConfDict) (k : String), (cc.map Prod.fst).Nodup →
      dictFind? (applyOverride base cc) k =
        if k ≠ "group_id" ∧ k ≠ "__template_key" ∧ (dictFind? cc k).isSome
        then dictFind? cc k else dictFind? base k := by
  induction cc with
  | nil => intro base k _; simp [applyOverride, dictFind?]
  | cons hd tl ih =>
    intro base k hnd
    simp only [List.map_cons, List.nodup_cons] at hnd
    have hfold : applyOverride base (hd :: tl) =
        applyOverride
          (if hd.1 = "group_id" ∨ hd.1 = "__template_key" then base
           else dictSet base hd.1 hd.2) tl := rfl
    rw [hfold, ih _ k hnd.2]
    by_cases hk : k = hd.1
    · subst hk
      have htl : dictFind? tl hd.1 = none :=
        dictFind?_eq_none_of_not_mem tl hd.1 hnd.1
      by_cases hskip : hd.1 = "group_id" ∨ hd.1 = "__template_key"
      · rcases hskip with hs | hs <;>
          simp [htl, hs, dictFind?_cons]
      · push_neg at hskip
        simp [htl, hskip.1, hskip.2, dictFind?_cons, dictFind?_dictSet]
    · have hne : hd.1 ≠ k := fun hh => hk hh.symm
      have hhd : dictFind? (hd :: tl) k = dictFind? tl k := by
        rw [dictFind?_cons, if_neg hne]
      have hstep :
          dictFind?
            (if hd.1 = "group_id" ∨ hd.1 = "__template_key" then base
             else dictSet base hd.1 hd.2) k = dictFind? base k := by
        by_cases hskip : hd.1 = "group_id" ∨ hd.1 = "__template_key"
        · rw [if_pos hskip]
        · rw [if_neg hskip, dictFind?_dictSet, if_neg hk]
      rw [hstep, hhd]

lemma find?_append_first {α : Type} (p : α → Bool) (pre : List α) (cc : α) (post : List α)
    (hpre : ∀ c ∈ pre, p c = false) (hcc : p cc = true) :
    (pre ++ cc :: post).find? p = some cc := by
  induction pre with
  | nil => simp [List.find?_cons, hcc]
  | cons hd tl ih =>
    have hh := hpre hd (by simp)
    simp only [List.cons_append, List.find?_cons, hh]
    exact ih (fun c hc => hpre c (by simp [hc]))

/-- Claim C5: policy resolution returns the default configuration unchanged
when no override entry's `group_id` matches; and when some entry matches,
the result agrees, key by key, with the first matching entry on every key
it carries other than `group_id` and `__template_key`, and with the default
configuration on every other key — later entries for the same group are
ignored. -/
theorem c5_policy_resolution (default_config : ConfDict) (group_custom : List ConfDict)
    (g : String) :
    ((∀ cc ∈ group_custom, dictFind? cc "group_id" ≠ some (CVal.s g)) →
      get_group_config default_config group_custom g = default_config) ∧
    (∀ pre cc post, group_custom = pre ++ cc :: post →
      (∀ c ∈ pre, dictFind? c "group_id" ≠ some (CVal.s g)) →
      dictFind? cc "group_id" = some (CVal.s g) →
      (cc.map Prod.fst).Nodup →
      ∀ k, dictFind? (get_group_config default_config group_custom g) k =
        if k ≠ "group_id" ∧ k ≠ "__template_key" ∧ (dictFind? cc k).isSome
        then dictFind? cc k else dictFind? default_config k) := by
  constructor
  · intro hnone
    unfold get_group_config
    rw [List.find?_eq_none.mpr (fun cc hcc => by simp [hnone cc hcc])]
  · intro pre cc post heq hpre hcc hnd k
    unfold get_group_config
    rw [heq, find?_append_first _ pre cc post
      (fun c hc => by simp [hpre c hc]) (by simp [hcc])]
    exact dictFind?_applyOverride cc default_config k hnd

/-- Witness for C5: a concrete default, a non-matching first entry, a
matching second entry and a duplicate third entry; the resolved
configuration takes the overridden key from the second entry, keeps the
default for keys the override does not carry, and never copies
`__template_key`. -/
theorem c5_policy_resolution_witness :
    dictFind?
      (get_group_config [("a", CVal.i 1), ("single_user_violation_threshold", CVal.i 3)]
        [[("group_id", CVal.s "other")],
         [("group_id", CVal.s "g1"), ("a", CVal.i 2), ("__template_key", CVal.s "t")],
         [("group_id", CVal.s "g1"), ("a", CVal.i 99)]] "g1") "a" = some (CVal.i 2) ∧
    dictFind?
      (get_group_config [("a", CVal.i 1), ("single_user_violation_threshold", CVal.i 3)]
        [[("group_id", CVal.s "other")],
         [("group_id", CVal.s "g1"), ("a", CVal.i 2), ("__template_key", CVal.s "t")],
         [("group_id", CVal.s "g1"), ("a", CVal.i 99)]] "g1")
      "single_user_violation_threshold" = some (CVal.i 3) ∧
    dictFind?
      (get_group_config [("a", CVal.i 1), ("single_user_violation_threshold", CVal.i 3)]
        [[("group_id", CVal.s "other")],
         [("group_id", CVal.s "g1"), ("a", CVal.i 2), ("__template_key", CVal.s "t")],
         [("group_id", CVal.s "g1"), ("a", CVal.i 99)]] "g1") "__template_key" = none := by
  have h := (c5_policy_resolution
    [("a", CVal.i 1), ("single_user_violation_threshold", CVal.i 3)]
    [[("group_id", CVal.s "other")],
     [("group_id", CVal.s "g1"), ("a", CVal.i 2), ("__template_key", CVal.s "t")],
     [("group_id", CVal.s "g1"), ("a", CVal.i 99)]] "g1").2
    [[("group_id", CVal.s "other")]]
    [("group_id", CVal.s "g1"), ("a", CVal.i 2), ("__template_key", CVal.s "t")]
    [[("group_id", CVal.s "g1"), ("a", CVal.i 99)]] rfl
    (by decide) (by decide) (by decide)
  exact ⟨(h "a").trans (by decide),
    (h "single_user_violation_threshold").trans (by decide),
    (h "__template_key").trans (by decide)⟩

/-! ### Helper lemmas about the violation ledger -/

lemma mem_alistGet?_cleanList {κ : Type} [DecidableEq κ] (d : List (κ × List Int))
    (c : Int) (k : κ) (x : Int)
    (hx : x ∈ (alistGet? (cleanList d c) k).getD []) : x > c := by
  cases h : alistGet? (cleanList d c) k with
  | none => rw [h] at hx; simp at hx
  | some l =>
    rw [h] at hx
    simp only [Option.getD_some] at hx
    unfold alistGet? at h
    obtain ⟨p, hp, hpl⟩ : ∃ p,
        (cleanList d c).find? (fun p => decide (p.1 = k)) = some p ∧ p.2 = l := by
      cases hf : (cleanList d c).find? (fun p => decide (p.1 = k)) with
      | none => rw [hf] at h; simp at h
      | some p =>
        rw [hf] at h
        exact ⟨p, rfl, by simpa using h⟩
    have hmem := List.mem_of_find?_eq_some hp
    unfold cleanList at hmem
    rw [List.mem_filter] at hmem
    obtain ⟨hmap, -⟩ := hmem
    rw [List.mem_map] at hmap
    obtain ⟨q, hq, hqp⟩ := hmap
    rw [← hqp] at hpl
    simp only at hpl
    rw [← hpl] at hx
    rw [List.mem_filter] at hx
    exact of_decide_eq_true hx.2

lemma add_violation_singleton (g u : String) (acc : List Int) (τ : Int)
    (hacc : ∀ x ∈ acc, x > τ - 86400) :
    add_violation ⟨[((g, u), acc)], [(g, acc)]⟩ g u "" τ =
      ⟨[((g, u), acc ++ [τ])], [(g, acc ++ [τ])]⟩ := by
  have hkeep : (acc ++ [τ]).filter (fun ts => decide (ts > τ - 86400)) = acc ++ [τ] := by
    apply List.filter_eq_self.mpr
    intro x hx
    rcases List.mem_append.mp hx with hx | hx
    · exact decide_eq_true (hacc x hx)
    · simp only [List.mem_singleton] at hx
      subst hx
      exact decide_eq_true (by omega)
  have hne : (acc ++ [τ]).isEmpty = false := by
    simp [List.isEmpty_iff]
  unfold add_violation cleanup_expired_records
  simp [alistAppend, cleanList, hkeep, hne]

lemma recordSeq_go (g u : String) :
    ∀ (ts acc : List Int),
      (∀ x ∈ acc, ∀ t ∈ ts, x > t - 86400) →
      (∀ x ∈ ts, ∀ t ∈ ts, x > t - 86400) →
      ts.foldl (fun vm t => add_violation vm g u "" t)
          ⟨[((g, u), acc)], [(g, acc)]⟩ =
        ⟨[((g, u), acc ++ ts)], [(g, acc ++ ts)]⟩ := by
  intro ts
  induction ts with
  | nil => intro acc h1 h2; simp
  | cons τ rest ih =>
    intro acc hacc hts
    have hacc' : ∀ x ∈ acc ++ [τ], ∀ t ∈ rest, x > t - 86400 := by
      intro x hx t ht
      rcases List.mem_append.mp hx with hx | hx
      · exact hacc x hx t (by simp [ht])
      · simp only [List.mem_singleton] at hx
        subst hx
        exact hts _ (by simp) t (by simp [ht])
    have hts' : ∀ x ∈ rest, ∀ t ∈ rest, x > t - 86400 := by
      intro x hx t ht
      exact hts x (by simp [hx]) t (by simp [ht])
    rw [List.foldl_cons,
      add_violation_singleton g u acc τ (fun x hx => hacc x hx τ (by simp)),
      ih (acc ++ [τ]) hacc' hts']
    simp

lemma recordSeq_store (g u : String) (τ : Int) (rest : List Int)
    (h : ∀ x ∈ τ :: rest, ∀ t ∈ τ :: rest, x > t - 86400) :
    recordSeq g u (τ :: rest) = ⟨[((g, u), τ :: rest)], [(g, τ :: rest)]⟩ := by
  unfold recordSeq
  rw [List.foldl_cons]
  have hstep : add_violation ViolationManager.empty g u "" τ =
      ⟨[((g, u), [τ])], [(g, [τ])]⟩ := by
    unfold ViolationManager.empty add_violation cleanup_expired_records
    simp [alistAppend, cleanList, decide_eq_true (show τ > τ - 86400 by omega)]
  have hacc : ∀ x ∈ [τ], ∀ t ∈ rest, x > t - 86400 := by
    intro x hx t ht
    simp only [List.mem_singleton] at hx
    subst hx
    exact h _ (by simp) t (by simp [ht])
  have hts : ∀ x ∈ rest, ∀ t ∈ rest, x > t - 86400 := by
    intro x hx t ht
    exact h x (by simp [hx]) t (by simp [ht])
  rw [hstep, recordSeq_go g u rest [τ] hacc hts]
  simp

/-- Claim C2 counterexample: two recordings for the same user, both within
the last `W = 200000` seconds of the query instant `now = 100000`
(timestamps `0` and `100000`), yet the user count is `1`, not `2`: the
second `add_violation` call runs the 24-hour cleanup, which purges the
first event even though it is still inside the queried window. -/
theorem c2_counterexample :
    ((0 : Int) > 100000 - 200000) ∧ ((0 : Int) ≤ 100000) ∧
    ((100000 : Int) > 100000 - 200000) ∧ ((100000 : Int) ≤ 100000) ∧
    get_user_violation_count (recordSeq "g" "u" [0, 100000]) "g" "u" 200000 100000 = 1 := by
  decide

/-- Claim C2 (amended): for a window `W` at most the 24-hour retention
horizon, after `N` recordings for `(g, u)` all within the last `W` seconds
the user count and the group count are both `N`; a key never recorded
counts `0` (not an error); and once all recorded events age past `W`
seconds the count is `0`.  (For `W > 86400` the original claim fails, see
the counterexample: a later recording purges events older than 24 hours
that are still inside the window.) -/
theorem c2_windowed_counts (g u : String) (W now : Int) (ts : List Int)
    (hW : W ≤ 86400) (hts : ∀ t ∈ ts, now - W < t ∧ t ≤ now) :
    get_user_violation_count (recordSeq g u ts) g u W now = ts.length ∧
    get_group_violation_count (recordSeq g u ts) g W now = ts.length ∧
    (∀ g' u', (g', u') ≠ (g, u) →
      get_user_violation_count (recordSeq g u ts) g' u' W now = 0) ∧
    (∀ now', (∀ t ∈ ts, t ≤ now' - W) →
      get_user_violation_count (recordSeq g u ts) g u W now' = 0) := by
  have hgt : ∀ x ∈ ts, ∀ t ∈ ts, x > t - 86400 := by
    intro x hx t ht
    have h1 := hts x hx
    have h2 := hts t ht
    omega
  cases ts with
  | nil =>
    refine ⟨?_, ?_, ?_, ?_⟩ <;>
      simp [recordSeq, ViolationManager.empty, get_user_violation_count,
        get_group_violation_count, alistGet?]
  | cons τ rest =>
    rw [recordSeq_store g u τ rest hgt]
    have hfull : (τ :: rest).filter (fun t => decide (t > now - W)) = τ :: rest :=
      List.filter_eq_self.mpr (fun x hx => decide_eq_true (hts x hx).1)
    refine ⟨?_, ?_, ?_, ?_⟩
    · simp [get_user_violation_count, alistGet?, List.find?_cons, hfull]
    · simp [get_group_violation_count, alistGet?, List.find?_cons, hfull]
    · intro g' u' hne
      simp [get_user_violation_count, alistGet?, List.find?_cons,
        show ¬((g, u) = (g', u')) from fun hh => hne hh.symm]
    · intro now' hold
      have hnil : (τ :: rest).filter (fun t => decide (t > now' - W)) = [] := by
        apply List.filter_eq_nil_iff.mpr
        intro x hx
        have := hold x hx
        simp only [decide_eq_true_eq]
        omega
      simp [get_user_violation_count, alistGet?, List.find?_cons, hnil]

/-- Witness for C2 (amended) at two concrete recordings inside a 10-second
window. -/
theorem c2_windowed_counts_witness :
    get_user_violation_count (recordSeq "g" "u" [95, 98]) "g" "u" 10 100 = 2 ∧
    get_group_violation_count (recordSeq "g" "u" [95, 98]) "g" 10 100 = 2 ∧
    get_user_violation_count (recordSeq "g" "u" [95, 98]) "g" "v" 10 100 = 0 ∧
    get_user_violation_count (recordSeq "g" "u" [95, 98]) "g" "u" 10 200 = 0 := by
  have h := c2_windowed_counts "g" "u" 10 100 [95, 98] (by decide) (by decide)
  exact ⟨h.1.trans (by decide), h.2.1.trans (by decide),
    h.2.2.1 "g" "v" (by decide), h.2.2.2 200 (by decide)⟩

/-- Claim C3 counterexample: one event recorded at time `0`; at query time
`86401` it is more than 24 hours old, yet a query with window `86402`
still counts it (the count query filters only by the queried window and
never runs the horizon cleanup itself).  Dropping over-horizon events, as
`cleanup_expired_records` does, would give `0`. -/
theorem c3_counterexample :
    ((0 : Int) ≤ 86401 - 86400) ∧
    get_user_violation_count (recordSeq "g" "u" [0]) "g" "u" 86402 86401 = 1 ∧
    get_user_violation_count (cleanup_expired_records (recordSeq "g" "u" [0]) 86401)
      "g" "u" 86402 86401 = 0 := by
  decide

/-- Claim C3 (amended): events older than 24 hours never contribute to a
count whose window `W` is at most `86400` seconds (the window filter
already excludes them), and every `add_violation` call at time `t` purges
from both dictionaries every event with timestamp at most `t - 86400`.
For `W > 86400` an over-horizon event that no later recording has purged
does still contribute, as the counterexample shows. -/
theorem c3_retention_horizon :
    (∀ (vm : ViolationManager) (g u : String) (W now : Int), W ≤ 86400 →
      get_user_violation_count vm g u W now =
        ((((alistGet? vm.user_violations (g, u)).getD []).filter
          (fun ts => decide (ts > now - W) && decide (ts > now - 86400))).length : Int) ∧
      get_group_violation_count vm g W now =
        ((((alistGet? vm.group_violations g).getD []).filter
          (fun ts => decide (ts > now - W) && decide (ts > now - 86400))).length : Int)) ∧
    (∀ (vm : ViolationManager) (g u vt : String) (t : Int) (k : String × String) (x : Int),
      x ∈ (alistGet? (add_violation vm g u vt t).user_violations k).getD [] →
        x > t - 86400) ∧
    (∀ (vm : ViolationManager) (g u vt : String) (t : Int) (k : String) (x : Int),
      x ∈ (alistGet? (add_violation vm g u vt t).group_violations k).getD [] →
        x > t - 86400) := by
  refine ⟨?_, ?_, ?_⟩
  · intro vm g u W now hW
    have hcong : ∀ (l : List Int),
        l.filter (fun ts => decide (ts > now - W)) =
          l.filter (fun ts => decide (ts > now - W) && decide (ts > now - 86400)) := by
      intro l
      apply List.filter_congr
      intro x _
      by_cases hx : x > now - W
      · have hx' : x > now - 86400 := by omega
        simp [hx, hx']
      · simp [hx]
    constructor
    · unfold get_user_violation_count
      cases h : alistGet? vm.user_violations (g, u) with
      | none => simp
      | some l => simp [hcong l]
    · unfold get_group_violation_count
      cases h : alistGet? vm.group_violations g with
      | none => simp
      | some l => simp [hcong l]
  · intro vm g u vt t k x hx
    have hrw : (add_violation vm g u vt t).user_violations =
        cleanList (alistAppend vm.user_violations (g, u) t) (t - 86400) := rfl
    rw [hrw] at hx
    exact mem_alistGet?_cleanList _ _ _ _ hx
  · intro vm g u vt t k x hx
    have hrw : (add_violation vm g u vt t).group_violations =
        cleanList (alistAppend vm.group_violations g t) (t - 86400) := rfl
    rw [hrw] at hx
    exact mem_alistGet?_cleanList _ _ _ _ hx

/-- Witness for C3 (amended): a concrete in-horizon query, and a concrete
event surviving a recording because it is younger than 24 hours. -/
theorem c3_retention_horizon_witness :
    get_user_violation_count (recordSeq "g" "u" [50]) "g" "u" 100 100 = 1 ∧
    ((100 : Int) > 100 - 86400) := by
  constructor
  · exact ((c3_retention_horizon.1 (recordSeq "g" "u" [50]) "g" "u" 100 100
      (by decide)).1).trans (by decide)
  · exact c3_retention_horizon.2.1 ViolationManager.empty "g" "u" "" 100 ("g", "u") 100
      (by decide)

end AipReview
